import Mathlib

/-
Verification development for the MentisSandbox runtime control plane
(go/mentisruntime).  The definitions below are shallow embeddings of the
Go source: the observation-ingestion pipeline of the Sandbox Manager
(manager/manager.go), the WebSocket Hub dispatcher (ws/hub.go), the
per-connection write worker (ws/client.go), the space registry
(SpaceManager) and the HTTP handlers that wire them together.
Network and container effects are represented by explicit oracle
parameters; JSON values are represented by their parsed field content.
-/

set_option autoImplicit false

namespace Mentis

/-! ## Observation pipeline (manager/manager.go)

An observation pushed by the in-container executor is a JSON object.
ReceiveInternalObservation unmarshals it into a struct with fields
observation_type, action_id, exit_code (optional) and error (optional).
We model the unmarshalled struct as ParsedObs and an incoming push as a
ParseResult: either the bytes parse to a ParsedObs or they do not.
-/

/-- Fields of the struct that ReceiveInternalObservation unmarshals an
incoming observation into: observation_type, action_id, and the optional
top-level exit_code and error fields. -/
structure ParsedObs where
  observationType : String
  actionId : String
  exitCode : Option Int
  errorMsg : Option String
deriving DecidableEq, Repr

/-- Outcome of json.Unmarshal on the pushed bytes: failure keeps only the
raw bytes, success keeps the parsed struct together with the raw bytes
(the manager rebroadcasts the original bytes, not a re-marshalling). -/
inductive ParseResult where
  | failure (raw : String)
  | success (obs : ParsedObs) (raw : String)
deriving DecidableEq, Repr

/-- One message submitted to the Hub by the manager while ingesting
observations: either the incoming bytes rebroadcast (parsed or not), or
an end observation synthesized by sendEndObservation.  The synthesized
end message carries an errorMsg field mirroring the optional error key of
the end observation JSON shape. -/
inductive Delivered where
  | raw (obs : ParsedObs) (bytes : String)
  | rawUnparsed (bytes : String)
  | synthEnd (actionId : String) (exitCode : Int) (errorMsg : Option String)
deriving DecidableEq, Repr

/-- Embedding of SandboxManager.sendEndObservation: it receives only the
action id and the exit code, and the end message it marshals contains a
data object with a single exit_code key, so the optional error key of the
end shape is always absent. -/
def sendEndObservation (actionId : String) (exitCode : Int) : Delivered :=
  Delivered.synthEnd actionId exitCode none

/-- Embedding of SandboxManager.processParsedObservation: a result
observation triggers one synthesized end with the exit code taken from
the top-level exit_code field, defaulting to 0 when absent; an error
observation triggers one synthesized end with the exit code defaulting
to -1 when absent; every other observation type triggers nothing. -/
def processParsedObservation (obs : ParsedObs) : List Delivered :=
  if obs.observationType = "result" then
    [sendEndObservation obs.actionId (obs.exitCode.getD 0)]
  else if obs.observationType = "error" then
    [sendEndObservation obs.actionId (obs.exitCode.getD (-1))]
  else
    []

/-- Embedding of SandboxManager.ReceiveInternalObservation.  The first
component is the sequence of messages submitted to the Hub, the second is
the error returned to the caller (the internal observation handler).
For an unknown sandbox nothing is broadcast and nil is returned.  When
parsing fails the raw bytes are still broadcast but a parse error is
returned.  When parsing succeeds the raw bytes are broadcast and then
processParsedObservation may append a synthesized end. -/
def ReceiveInternalObservation (known : Bool) (input : ParseResult) :
    List Delivered × Option String :=
  if known = false then
    ([], none)
  else
    match input with
    | ParseResult.failure raw =>
        ([Delivered.rawUnparsed raw], some "failed to parse observation JSON")
    | ParseResult.success obs raw =>
        (Delivered.raw obs raw :: processParsedObservation obs, none)

/-- Embedding of handler.InternalObservationHandler: it forwards the body
to ReceiveInternalObservation and answers HTTP 500 when that call returns
an error, HTTP 200 otherwise.  The result pairs the status code with the
messages submitted to the Hub. -/
def InternalObservationHandler (known : Bool) (input : ParseResult) :
    Nat × List Delivered :=
  let r := ReceiveInternalObservation known input
  (if (r.2).isSome then 500 else 200, r.1)

/-- Messages delivered for a whole sequence of pushes on an existing
sandbox, in push order. -/
def processAll (inputs : List ParseResult) : List Delivered :=
  (inputs.map (fun i => (ReceiveInternalObservation true i).1)).flatten

/-- A delivered message counts as an end observation for an action id if
it is a rebroadcast observation whose type is end with that action id, or
a synthesized end for that action id. -/
def isEndFor (aid : String) (d : Delivered) : Bool :=
  match d with
  | Delivered.raw o _ => decide (o.observationType = "end" ∧ o.actionId = aid)
  | Delivered.rawUnparsed _ => false
  | Delivered.synthEnd a _ _ => decide (a = aid)

/-- A delivered message is synthesized when it comes from
sendEndObservation rather than from rebroadcasting incoming bytes. -/
def isSynth (d : Delivered) : Bool :=
  match d with
  | Delivered.synthEnd _ _ _ => true
  | _ => false

/-- A delivered message is a rebroadcast of incoming bytes. -/
def isRawDelivery (d : Delivered) : Bool :=
  match d with
  | Delivered.raw _ _ => true
  | Delivered.rawUnparsed _ => true
  | Delivered.synthEnd _ _ _ => false

/-- An incoming push is terminal when it parses to a result or error
observation, the two types for which the manager synthesizes an end. -/
def isTerminalInput (i : ParseResult) : Bool :=
  match i with
  | ParseResult.failure _ => false
  | ParseResult.success o _ =>
      decide (o.observationType = "result" ∨ o.observationType = "error")

/-- Optional error field of a synthesized end message, none for raw
rebroadcasts. -/
def synthErrorField (d : Delivered) : Option String :=
  match d with
  | Delivered.synthEnd _ _ e => e
  | _ => none

/-! ## Hub dispatcher (ws/hub.go)

The Hub keeps a bounded send channel per client.  The dispatcher loop in
Hub.Run performs a non-blocking send to each subscriber of the target
sandbox; a subscriber is modelled by the occupancy and capacity of its
send channel.  In the full-buffer branch the Run loop only logs a
warning: the unregister and close statements are commented out in the
source, so no disconnection is scheduled.  BroadcastToSandbox, a separate
entry point not used by the dispatcher, does schedule an unregister for
each full subscriber. -/

/-- A subscriber of a sandbox: identity, number of messages currently
queued in its send channel, and the channel capacity. -/
structure Subscriber where
  subId : Nat
  pending : Nat
  capacity : Nat
deriving DecidableEq, Repr

/-- Non-blocking send to one subscriber: the select statement enqueues
when the channel has room and otherwise falls to the default branch.
The Bool reports whether the message was enqueued. -/
def trySendToSubscriber (s : Subscriber) : Subscriber × Bool :=
  if s.pending < s.capacity then
    ({ s with pending := s.pending + 1 }, true)
  else
    (s, false)

/-- Embedding of the broadcast branch of Hub.Run for one message: each
subscriber receives a non-blocking send; the second component is the list
of subscriber ids scheduled for disconnection, which is always empty
because the close and delete statements in the default branch are
commented out in the source. -/
def hubRunDispatch (subs : List Subscriber) : List Subscriber × List Nat :=
  (subs.map (fun s => (trySendToSubscriber s).1), [])

/-- Embedding of Hub.BroadcastToSandbox for one message: same
non-blocking sends, but every subscriber whose channel is full is sent to
the unregister channel. -/
def broadcastToSandboxDispatch (subs : List Subscriber) : List Subscriber × List Nat :=
  (subs.map (fun s => (trySendToSubscriber s).1),
   (subs.filter (fun s => decide (s.capacity ≤ s.pending))).map (fun s => s.subId))

/-! ## Per-connection write worker (ws/client.go)

One iteration of writePump that woke up on a message m: it opens a single
text frame with NextWriter, writes m, then drains the n messages
currently queued in the send channel into the same frame, writing a
newline separator before each, and closes the frame. -/

/-- Byte content of the single text frame written by one iteration of
writePump in ws/client.go, given the message that woke the worker and
the messages queued in the send channel at that moment. -/
def writePumpFrame (m : String) (queued : List String) : String :=
  queued.foldl (fun acc x => acc ++ "\n" ++ x) m

/-- Byte content of the frame written per message by the writePump
variant kept in ws/hub.go, which calls WriteMessage once per message and
performs no draining. -/
def writePumpFrameSingle (m : String) : String :=
  m

/-! ## Action handshake (manager/manager.go handleActionExecution)

The goroutine spawned by InitiateAction emits a synthetic start, performs
one HTTP POST to the executor, and reacts only to the immediate outcome
of that call.  The outcome is modelled as either a transport failure or a
response with a status code and body. -/

/-- Observation pushed to the Hub by the action goroutine, identified by
its semantic content. -/
inductive Emitted where
  | start (actionId : String)
  | errObs (actionId : String) (msg : String)
  | endObs (actionId : String) (exitCode : Int) (msg : String)
deriving DecidableEq, Repr

/-- Immediate outcome of the POST to the executor. -/
inductive Handshake where
  | transportFailure (errText : String)
  | response (status : Nat) (body : String)
deriving DecidableEq, Repr

/-- Error text built by handleActionExecution for a status of at least
400, appending the response body when it is non-empty. -/
def agentErrorMessage (status : Nat) (body : String) : String :=
  let base := "Agent returned error status " ++ toString status
  if body = "" then base else base ++ ": " ++ body

/-- Embedding of SandboxManager.handleActionExecution: emit start, then
on a transport failure or a status of at least 400 emit one error
observation and one end observation with exit code -1 and return; on a
2xx or 3xx status emit nothing further. -/
def handleActionExecution (actionId : String) (h : Handshake) : List Emitted :=
  Emitted.start actionId ::
    match h with
    | Handshake.transportFailure errText =>
        let msg := "Failed to execute action request via agent: " ++ errText
        [Emitted.errObs actionId msg, Emitted.endObs actionId (-1) msg]
    | Handshake.response status body =>
        if 400 ≤ status then
          let msg := agentErrorMessage status body
          [Emitted.errObs actionId msg, Emitted.endObs actionId (-1) msg]
        else
          []

/-- A handshake failed when the transport erred or the executor answered
with a status of at least 400. -/
def handshakeFailed (h : Handshake) : Bool :=
  match h with
  | Handshake.transportFailure _ => true
  | Handshake.response status _ => decide (400 ≤ status)

/-! ## Runtime state: sandbox index and space registry

SandboxManager.sandboxes maps a sandbox id to its state; SpaceManager
keeps spaces by id, each holding the set of ids of the sandboxes it
contains.  Go maps are modelled as association lists with unique keys in
any state the code builds; lookup finds the first matching key, deletion
removes every entry with the key. -/

/-- State of one sandbox as kept by the SandboxManager. -/
structure SandboxRec where
  containerID : String
  agentURL : String
  isRunning : Bool
  spaceID : String
deriving DecidableEq, Repr

/-- State of one space as kept by the SpaceManager; sandboxIds models the
key set of its Sandboxes map. -/
structure SpaceRec where
  id : String
  name : String
  description : String
  sandboxIds : List String
deriving DecidableEq, Repr

/-- Combined in-memory state of the SandboxManager index and the
SpaceManager registry. -/
structure RuntimeState where
  sandboxes : List (String × SandboxRec)
  spaces : List SpaceRec
deriving DecidableEq, Repr

/-- Lookup in the sandbox index (Go map read). -/
def alookup : List (String × SandboxRec) → String → Option SandboxRec
  | [], _ => none
  | (k, v) :: rest, sid => if k = sid then some v else alookup rest sid

/-- Deletion from the sandbox index (Go map delete). -/
def aremove : List (String × SandboxRec) → String → List (String × SandboxRec)
  | [], _ => []
  | (k, v) :: rest, sid =>
      if k = sid then aremove rest sid else (k, v) :: aremove rest sid

/-- Lookup in the space registry by space id. -/
def findSpace : List SpaceRec → String → Option SpaceRec
  | [], _ => none
  | sp :: rest, i => if sp.id = i then some sp else findSpace rest i

/-- Deletion of a space entry from the registry. -/
def removeSpace : List SpaceRec → String → List SpaceRec
  | [], _ => []
  | sp :: rest, i =>
      if sp.id = i then removeSpace rest i else sp :: removeSpace rest i

/-- Update of the space stored under a given id. -/
def updateSpace : List SpaceRec → String → (SpaceRec → SpaceRec) → List SpaceRec
  | [], _, _ => []
  | sp :: rest, i, f =>
      if sp.id = i then f sp :: rest else sp :: updateSpace rest i f

/-- Embedding of SpaceManager.removeSandboxFromSpace: when the space is
missing it only logs and changes nothing; otherwise it deletes the
sandbox id from the Sandboxes map of that space. -/
def removeSandboxFromSpace (st : RuntimeState) (spaceID sid : String) : RuntimeState :=
  match findSpace st.spaces spaceID with
  | none => st
  | some _ =>
      { st with
        spaces := updateSpace st.spaces spaceID
          (fun sp => { sp with sandboxIds := sp.sandboxIds.filter (fun x => decide (x ≠ sid)) }) }

/-- Errors surfaced by the manager operations modelled here. -/
inductive MgrErr where
  | sandboxNotFound
  | spaceNotFound
  | nameConflict
  | removeFailed (msg : String)
deriving DecidableEq, Repr

/-- Embedding of SandboxManager.DeleteSandbox.  The container stop and
remove calls are oracles: stopErr is only logged, removeErr is reported
to the caller.  Whatever those oracles return, the sandbox is deleted
from the index and its id is deleted from the set of its space. -/
def DeleteSandbox (st : RuntimeState) (sid : String) (stopErr removeErr : Option String) :
    RuntimeState × Except MgrErr Unit :=
  match alookup st.sandboxes sid with
  | none => (st, Except.error MgrErr.sandboxNotFound)
  | some r =>
      let st1 : RuntimeState := { st with sandboxes := aremove st.sandboxes sid }
      let st2 := removeSandboxFromSpace st1 r.spaceID sid
      match removeErr with
      | some msg => (st2, Except.error (MgrErr.removeFailed msg))
      | none => (st2, Except.ok ())

/-- Embedding of SpaceManager.DeleteSpace: it deletes the space entry and
nothing else; deletion of contained sandboxes is left to the caller. -/
def SpaceManagerDeleteSpace (st : RuntimeState) (spaceID : String) :
    RuntimeState × Except MgrErr Unit :=
  match findSpace st.spaces spaceID with
  | none => (st, Except.error MgrErr.spaceNotFound)
  | some _ => ({ st with spaces := removeSpace st.spaces spaceID }, Except.ok ())

/-- Embedding of handler.DeleteSpaceHandler as wired in main.go: it calls
SpaceManager.DeleteSpace directly and maps its outcome to an HTTP status
(204 on success, 404 when the space is unknown). -/
def DeleteSpaceHandler (st : RuntimeState) (spaceID : String) : RuntimeState × Nat :=
  match SpaceManagerDeleteSpace st spaceID with
  | (st1, Except.ok _) => (st1, 204)
  | (st1, Except.error _) => (st1, 404)

/-- Embedding of SandboxManager.DeleteSpace, the coordinated path: fetch
the ids of the sandboxes contained in the space, delete each through
DeleteSandbox (ignoring not-found errors, keeping the first other error),
then delete the space entry.  The oracle supplies the container stop and
remove outcomes per sandbox id.  This method exists in the source but the
HTTP route for deleting a space does not call it. -/
def SandboxManagerDeleteSpace (st : RuntimeState) (spaceID : String)
    (oracle : String → Option String × Option String) :
    RuntimeState × Except MgrErr Unit :=
  match findSpace st.spaces spaceID with
  | none => (st, Except.error MgrErr.spaceNotFound)
  | some sp =>
      let step := fun (acc : RuntimeState × Option MgrErr) (sid : String) =>
        let (se, re) := oracle sid
        let (st', res) := DeleteSandbox acc.1 sid se re
        match res with
        | Except.ok _ => (st', acc.2)
        | Except.error MgrErr.sandboxNotFound => (st', acc.2)
        | Except.error e => (st', acc.2 <|> some e)
      let p := sp.sandboxIds.foldl step (st, none)
      let q := SpaceManagerDeleteSpace p.1 spaceID
      let firstErr := match q.2 with
        | Except.ok _ => p.2
        | Except.error e => p.2 <|> some e
      match firstErr with
      | some e => (q.1, Except.error e)
      | none => (q.1, Except.ok ())

/-- Embedding of SpaceManager.CreateSpace: reject a duplicate name, else
append a fresh space with empty sandbox set.  The generated uuid is an
explicit parameter. -/
def SpaceManagerCreateSpace (st : RuntimeState) (newId name description : String) :
    RuntimeState × Except MgrErr String :=
  if st.spaces.any (fun sp => decide (sp.name = name)) then
    (st, Except.error MgrErr.nameConflict)
  else
    ({ st with spaces := st.spaces ++ [⟨newId, name, description, []⟩] },
     Except.ok newId)

/-- Embedding of handler.CreateSpaceHandler: an empty name is rejected
with 400, a name conflict with 409, any other manager failure with 500;
otherwise the space is created and 201 is returned.  No other validation
of the name is performed. -/
def CreateSpaceHandler (st : RuntimeState) (newId name description : String) :
    RuntimeState × Nat :=
  if name = "" then
    (st, 400)
  else
    match SpaceManagerCreateSpace st newId name description with
    | (st1, Except.ok _) => (st1, 201)
    | (st1, Except.error MgrErr.nameConflict) => (st1, 409)
    | (st1, Except.error _) => (st1, 500)

/-- Spaces present right after NewSpaceManager runs: one default space
whose name is the literal Default Space. -/
def initialSpaces : List SpaceRec :=
  [⟨"default", "Default Space", "", []⟩]

/-- Modelled from the spec: the space-name format declared in the
OpenAPI document of the repository (CreateSpaceRequest and Space
schemas), pattern lowercase alphanumerics and hyphens with alphanumeric
first and last character, length 1 to 63.  No Go code in the runtime
implements this check; the definition exists to state what a conforming
name is. -/
def validSpaceName (s : String) : Bool :=
  let isLowerAlnum := fun (c : Char) =>
    (decide ('a' ≤ c) && decide (c ≤ 'z')) || (decide ('0' ≤ c) && decide (c ≤ '9'))
  match s.data with
  | [] => false
  | c :: cs =>
      decide (s.length ≤ 63) && isLowerAlnum c &&
      cs.all (fun d => isLowerAlnum d || decide (d = '-')) &&
      (match cs.getLast? with
       | none => true
       | some d => isLowerAlnum d)

/-! ## InitiateAction (manager/manager.go)

InitiateAction validates the sandbox under a read lock, builds the
request body, selects the executor URL by action type, and only then
spawns the goroutine that emits the start observation and performs the
POST.  It never mutates the manager state.  The effect list records the
goroutine spawn; an empty list means no observation of any kind was
broadcast and no request was sent. -/

/-- Externally visible effect of InitiateAction: the spawned goroutine
that will emit observations for the action and POST to the executor. -/
inductive ActionEffect where
  | spawnAction (sandboxId actionId url : String)
deriving DecidableEq, Repr

/-- Embedding of SandboxManager.InitiateAction.  The generated uuid is
the explicit parameter newActionId.  A missing or non-running sandbox and
an unsupported action type return an error before anything is spawned. -/
def InitiateAction (st : RuntimeState) (sandboxId actionType newActionId : String) :
    Except String String × List ActionEffect :=
  match alookup st.sandboxes sandboxId with
  | none => (Except.error ("sandbox " ++ sandboxId ++ " not found or not running"), [])
  | some r =>
      if r.isRunning = false then
        (Except.error ("sandbox " ++ sandboxId ++ " not found or not running"), [])
      else if actionType = "shell" then
        (Except.ok newActionId,
         [ActionEffect.spawnAction sandboxId newActionId
            (r.agentURL ++ "/tools:run_shell_command")])
      else if actionType = "ipython" then
        (Except.ok newActionId,
         [ActionEffect.spawnAction sandboxId newActionId
            (r.agentURL ++ "/tools:run_ipython_cell")])
      else
        (Except.error ("unsupported action type: " ++ actionType), [])

/-! ## Helper lemmas -/

/-- Deleting a key from the sandbox index makes lookup of that key fail. -/
theorem alookup_aremove (l : List (String × SandboxRec)) (sid : String) :
    alookup (aremove l sid) sid = none := by
  induction l with
  | nil => rfl
  | cons p rest ih =>
      obtain ⟨k, v⟩ := p
      by_cases hk : k = sid
      · simpa [aremove, hk] using ih
      · simp [aremove, alookup, hk, ih]

/-- removeSandboxFromSpace only touches the space registry. -/
theorem sandboxes_removeSandboxFromSpace (st : RuntimeState) (spaceID sid : String) :
    (removeSandboxFromSpace st spaceID sid).sandboxes = st.sandboxes := by
  unfold removeSandboxFromSpace
  split <;> rfl

/-- Updating a space under an id-preserving function commutes with lookup
of that id. -/
theorem findSpace_updateSpace (l : List SpaceRec) (i : String) (f : SpaceRec → SpaceRec)
    (hf : ∀ sp, (f sp).id = sp.id) :
    findSpace (updateSpace l i f) i = (findSpace l i).map f := by
  induction l with
  | nil => rfl
  | cons sp rest ih =>
      by_cases hs : sp.id = i
      · simp [updateSpace, findSpace, hs, hf]
      · simp [updateSpace, findSpace, hs, ih]

/-- Counting lemma for a single ingested observation: exactly one
synthesized end appears when the observation is terminal, none otherwise,
and the incoming bytes are rebroadcast exactly once. -/
theorem receive_synth_count (i : ParseResult) :
    (((ReceiveInternalObservation true i).1).filter isSynth).length
      = (if isTerminalInput i then 1 else 0) ∧
    (((ReceiveInternalObservation true i).1).filter isRawDelivery).length = 1 := by
  cases i with
  | failure raw =>
      simp [ReceiveInternalObservation, isSynth, isRawDelivery, isTerminalInput]
  | success o raw =>
      by_cases h1 : o.observationType = "result"
      · simp [ReceiveInternalObservation, processParsedObservation, sendEndObservation,
          isSynth, isRawDelivery, isTerminalInput, h1]
      · by_cases h2 : o.observationType = "error"
        · simp [ReceiveInternalObservation, processParsedObservation, sendEndObservation,
            isSynth, isRawDelivery, isTerminalInput, h1, h2]
        · simp [ReceiveInternalObservation, processParsedObservation, sendEndObservation,
            isSynth, isRawDelivery, isTerminalInput, h1, h2]

/-- Length of the frame assembled by one writePump iteration: the waking
message plus one newline and one payload per queued message. -/
theorem writePumpFrame_length (q : List String) :
    ∀ m, (writePumpFrame m q).length = m.length + (q.map (fun x => x.length + 1)).sum := by
  induction q with
  | nil => intro m; simp [writePumpFrame]
  | cons x q ih =>
      intro m
      have h1 : writePumpFrame m (x :: q) = writePumpFrame (m ++ "\n" ++ x) q := rfl
      have h2 : ("\n" : String).length = 1 := rfl
      rw [h1, ih]
      simp [String.length_append, h2]
      omega

/-- The identity of a subscriber is untouched by a non-blocking send. -/
theorem trySend_preserves_subId (s : Subscriber) :
    ((trySendToSubscriber s).1).subId = s.subId := by
  unfold trySendToSubscriber
  split <;> rfl

/-- After removeSandboxFromSpace, the space looked up under the same id
no longer lists the removed sandbox id. -/
theorem removeSandboxFromSpace_not_mem (st : RuntimeState) (i sid : String) (sp : SpaceRec)
    (hsp : findSpace (removeSandboxFromSpace st i sid).spaces i = some sp) :
    sid ∉ sp.sandboxIds := by
  unfold removeSandboxFromSpace at hsp
  revert hsp
  cases hfs : findSpace st.spaces i with
  | none =>
      intro hsp
      rw [hfs] at hsp
      exact absurd hsp (by simp)
  | some sp0 =>
      intro hsp
      dsimp only at hsp
      have hupd := findSpace_updateSpace st.spaces i
        (fun q => { q with sandboxIds := q.sandboxIds.filter (fun x => decide (x ≠ sid)) })
        (fun q => rfl)
      rw [hupd, hfs] at hsp
      have hsp2 : sp = { sp0 with
          sandboxIds := sp0.sandboxIds.filter (fun x => decide (x ≠ sid)) } := by
        simpa using hsp.symm
      subst hsp2
      simp

/-- DeleteSandbox on an id absent from the index returns SandboxNotFound
and changes nothing. -/
theorem deleteSandbox_not_found (st : RuntimeState) (sid : String) (se re : Option String)
    (h : alookup st.sandboxes sid = none) :
    DeleteSandbox st sid se re = (st, Except.error MgrErr.sandboxNotFound) := by
  unfold DeleteSandbox
  rw [h]

/-! ## Claim theorems -/

/-- Input stream used to refute the unique-final-end invariant: the
executor pushes a result observation and then an end observation for the
same action id. -/
def resultObsA : ParsedObs := ⟨"result", "a", none, none⟩

/-- Executor-sent end observation for the same action id. -/
def endObsA : ParsedObs := ⟨"end", "a", none, none⟩

/-- The two pushes of the C1 counterexample scenario. -/
def c1Inputs : List ParseResult :=
  [ParseResult.success resultObsA "r1", ParseResult.success endObsA "r2"]

/-- Claim C1 as stated is false: when the executor pushes a result
followed by an end for action a, the manager delivers two end
observations for a, and the last delivered observation is the raw
executor end, not a manager-synthesized one. -/
theorem c1_duplicate_end_counterexample :
    ((processAll c1Inputs).filter (isEndFor "a")).length = 2 ∧
    (processAll c1Inputs).getLast? = some (Delivered.raw endObsA "r2") ∧
    isSynth (Delivered.raw endObsA "r2") = false := by
  decide

/-- Claim C1, amended: while ingesting observations on an existing
sandbox the Manager synthesizes exactly one end per parsed result or
error observation and rebroadcasts every incoming push exactly once;
executor-sent end observations are rebroadcast raw and are neither
suppressed nor deduplicated, so an executor that pushes a result followed
by an end produces two end observations for the action id, the last
taken from the executor. -/
theorem c1_end_synthesis_discipline (inputs : List ParseResult) :
    ((processAll inputs).filter isSynth).length
      = (inputs.filter isTerminalInput).length ∧
    ((processAll inputs).filter isRawDelivery).length = inputs.length := by
  induction inputs with
  | nil => simp [processAll]
  | cons i is ih =>
      have hp : processAll (i :: is) = (ReceiveInternalObservation true i).1 ++ processAll is := by
        simp [processAll]
      constructor
      · rw [hp, List.filter_append, List.length_append, ih.1, (receive_synth_count i).1]
        by_cases ht : isTerminalInput i
        · simp [List.filter_cons, ht, Nat.add_comm]
        · simp [List.filter_cons, ht]
      · rw [hp, List.filter_append, List.length_append, ih.2, (receive_synth_count i).2]
        simp [List.length_cons]
        omega

/-- Result observation carrying both an exit code and an error string,
used to show the synthesized end drops the error. -/
def resultWithErrObs : ParsedObs := ⟨"result", "a", some 2, some "boom"⟩

/-- Claim C2 as stated is false: for a result observation carrying exit
code 2 and the error string boom, the manager broadcasts the raw result
and one synthesized end with exit code 2 whose error field is absent; no
synthesized message carries the error string of the result. -/
theorem c2_end_drops_error_counterexample :
    (ReceiveInternalObservation true (ParseResult.success resultWithErrObs "rb")).1 =
      [Delivered.raw resultWithErrObs "rb", Delivered.synthEnd "a" 2 none] ∧
    ¬ ∃ d ∈ (ReceiveInternalObservation true (ParseResult.success resultWithErrObs "rb")).1,
        isSynth d = true ∧ synthErrorField d = some "boom" := by
  decide

/-- Claim C2, amended: when ReceiveObservation parses an incoming result
observation on an existing sandbox, the Manager broadcasts the raw bytes
and synthesizes exactly one end whose exit code equals the top-level exit
code of the result, defaulting to 0 when absent; the synthesized end
carries only the exit code and never the error string of the result. -/
theorem c2_result_end_synthesis (o : ParsedObs) (raw : String)
    (h : o.observationType = "result") :
    (ReceiveInternalObservation true (ParseResult.success o raw)).1 =
      [Delivered.raw o raw, Delivered.synthEnd o.actionId (o.exitCode.getD 0) none] ∧
    (ReceiveInternalObservation true (ParseResult.success o raw)).2 = none := by
  simp [ReceiveInternalObservation, processParsedObservation, sendEndObservation, h]

/-- Witness for the amended C2 theorem at a concrete result push. -/
theorem c2_result_end_synthesis_witness :
    resultWithErrObs.observationType = "result" ∧
    ((ReceiveInternalObservation true (ParseResult.success resultWithErrObs "rb")).1 =
      [Delivered.raw resultWithErrObs "rb",
       Delivered.synthEnd resultWithErrObs.actionId (resultWithErrObs.exitCode.getD 0) none] ∧
     (ReceiveInternalObservation true (ParseResult.success resultWithErrObs "rb")).2 = none) :=
  ⟨by decide, c2_result_end_synthesis resultWithErrObs "rb" (by decide)⟩

/-- State with one space s containing one running sandbox b, used to
evaluate the space-deletion route. -/
def c3State : RuntimeState :=
  ⟨[("b", ⟨"c1", "http://x", true, "s"⟩)], [⟨"s", "team", "", ["b"]⟩]⟩

/-- Claim C3 evaluated at the failing input: deleting space s through the
wired handler answers 204 and removes the space entry, yet sandbox b,
whose space id references s, is still present in the Manager index; the
uncalled SandboxManager.DeleteSpace path would have removed it. -/
theorem c3_space_delete_leaves_sandboxes :
    (DeleteSpaceHandler c3State "s").2 = 204 ∧
    findSpace (DeleteSpaceHandler c3State "s").1.spaces "s" = none ∧
    alookup (DeleteSpaceHandler c3State "s").1.sandboxes "b" =
      some ⟨"c1", "http://x", true, "s"⟩ ∧
    alookup (SandboxManagerDeleteSpace c3State "s" (fun _ => (none, none))).1.sandboxes "b"
      = none := by
  decide

/-- Claim C4 as stated is false at this input: ingesting unparseable
bytes on an existing sandbox still broadcasts the raw bytes, but the call
returns a parse error and the internal observation endpoint answers HTTP
500 to the executor. -/
theorem c4_parse_failure_http500_counterexample :
    (ReceiveInternalObservation true (ParseResult.failure "not-json")).2 ≠ none ∧
    (InternalObservationHandler true (ParseResult.failure "not-json")).1 = 500 ∧
    (InternalObservationHandler true (ParseResult.failure "not-json")).2 =
      [Delivered.rawUnparsed "not-json"] := by
  decide

/-- Claim C4, amended: for every call to ReceiveObservation on an
existing sandbox whose bytes fail to parse, the operation logs and still
broadcasts the raw bytes to the Hub, but it returns a parse error, which
the internal observation endpoint surfaces to the executor as HTTP 500. -/
theorem c4_parse_failure_behavior (raw : String) :
    (ReceiveInternalObservation true (ParseResult.failure raw)).1 =
      [Delivered.rawUnparsed raw] ∧
    (ReceiveInternalObservation true (ParseResult.failure raw)).2 =
      some "failed to parse observation JSON" ∧
    (InternalObservationHandler true (ParseResult.failure raw)).1 = 500 :=
  ⟨rfl, rfl, rfl⟩

/-- Subscriber whose send channel is at capacity. -/
def fullSub : Subscriber := ⟨7, 256, 256⟩

/-- Claim C5 as stated is false at this input: for a subscriber with a
full buffer the Run dispatcher leaves the subscriber unchanged, dropping
the message, and schedules nobody for disconnection, while the separate
BroadcastToSandbox entry point would have scheduled subscriber 7. -/
theorem c5_full_buffer_not_disconnected_counterexample :
    hubRunDispatch [fullSub] = ([fullSub], []) ∧
    broadcastToSandboxDispatch [fullSub] = ([fullSub], [7]) := by
  decide

/-- Claim C5, amended: for every message the Hub dispatcher processes it
performs only non-blocking sends: it never schedules any subscriber for
disconnection, the subscriber set is unchanged, and a subscriber whose
buffer is full keeps its state unchanged, the message being dropped for
it silently; disconnection of full subscribers exists only in
BroadcastToSandbox, which the dispatcher does not use. -/
theorem c5_dispatcher_drop_behavior (subs : List Subscriber) :
    (hubRunDispatch subs).2 = [] ∧
    (hubRunDispatch subs).1.map Subscriber.subId = subs.map Subscriber.subId ∧
    ∀ s ∈ subs, s.capacity ≤ s.pending → (trySendToSubscriber s).1 = s := by
  refine ⟨rfl, ?_, ?_⟩
  · simp only [hubRunDispatch, List.map_map]
    apply List.map_congr_left
    intro s _
    exact trySend_preserves_subId s
  · intro s _ hfull
    unfold trySendToSubscriber
    rw [if_neg (Nat.not_lt.mpr hfull)]

/-- Witness for the amended C5 theorem at a concrete full subscriber. -/
theorem c5_dispatcher_drop_behavior_witness :
    (trySendToSubscriber fullSub).1 = fullSub ∧ (hubRunDispatch [fullSub]).2 = [] :=
  ⟨(c5_dispatcher_drop_behavior [fullSub]).2.2 fullSub (by simp) (by decide),
   (c5_dispatcher_drop_behavior [fullSub]).1⟩

/-- Claim C6 as stated is false at this input: when message b is queued
behind message a, the write worker of ws/client.go emits one frame whose
bytes are a, a newline, then b, which differs from either submitted
message alone. -/
theorem c6_frame_concatenation_counterexample :
    writePumpFrame "a" ["b"] = "a" ++ "\n" ++ "b" ∧
    writePumpFrame "a" ["b"] ≠ "a" ∧
    writePumpFrame "a" ["b"] ≠ "b" := by
  decide

/-- Claim C6, amended: one iteration of the ws/client.go write worker
writes a single text frame whose length is that of the waking message
plus, for each message queued at that moment, one separator byte and the
message; the frame equals exactly the submitted bytes of one message iff
no other message is queued when the write occurs; the writePump variant
kept in ws/hub.go always writes exactly the submitted bytes. -/
theorem c6_frame_content (m : String) (queued : List String) :
    (writePumpFrame m queued).length
      = m.length + (queued.map (fun x => x.length + 1)).sum ∧
    (writePumpFrame m queued = m ↔ queued = []) ∧
    writePumpFrameSingle m = m := by
  refine ⟨writePumpFrame_length queued m, ⟨?_, ?_⟩, rfl⟩
  · intro he
    cases queued with
    | nil => rfl
    | cons x q =>
        have hl := writePumpFrame_length (x :: q) m
        rw [he] at hl
        simp [List.map_cons, List.sum_cons] at hl
  · rintro rfl
    rfl

/-- Claim C7: for every initiated action whose handshake with the
executor fails, either because the executor answered a status of at
least 400 or because the transport erred, the Manager emits, after the
synthetic start, exactly one error observation followed by exactly one
end observation with exit code -1 for that action id, and nothing
further. -/
theorem c7_handshake_failure_emissions (actionId : String) (h : Handshake)
    (hf : handshakeFailed h = true) :
    ∃ msg, handleActionExecution actionId h =
      [Emitted.start actionId, Emitted.errObs actionId msg,
       Emitted.endObs actionId (-1) msg] := by
  cases h with
  | transportFailure e =>
      exact ⟨"Failed to execute action request via agent: " ++ e, rfl⟩
  | response status body =>
      have h4 : 400 ≤ status := by simpa [handshakeFailed] using hf
      exact ⟨agentErrorMessage status body, by simp [handleActionExecution, h4]⟩

/-- Witness for C7 at a concrete failed handshake. -/
theorem c7_handshake_failure_emissions_witness :
    handshakeFailed (Handshake.response 500 "boom") = true ∧
    ∃ msg, handleActionExecution "act-1" (Handshake.response 500 "boom") =
      [Emitted.start "act-1", Emitted.errObs "act-1" msg,
       Emitted.endObs "act-1" (-1) msg] :=
  ⟨by decide,
   c7_handshake_failure_emissions "act-1" (Handshake.response 500 "boom") (by decide)⟩

/-- Claim C8: once DeleteSandbox is issued on an existing sandbox, the
sandbox is removed from the Manager index and its id from the set of its
space whatever the container stop and remove oracles return, and every
subsequent DeleteSandbox call with the same id returns SandboxNotFound. -/
theorem c8_delete_sandbox_idempotent (st : RuntimeState) (sid : String) (r : SandboxRec)
    (se re se2 re2 : Option String)
    (h : alookup st.sandboxes sid = some r) :
    alookup (DeleteSandbox st sid se re).1.sandboxes sid = none ∧
    (∀ sp, findSpace (DeleteSandbox st sid se re).1.spaces r.spaceID = some sp →
        sid ∉ sp.sandboxIds) ∧
    (DeleteSandbox (DeleteSandbox st sid se re).1 sid se2 re2).2 =
      Except.error MgrErr.sandboxNotFound := by
  have hst : (DeleteSandbox st sid se re).1 =
      removeSandboxFromSpace { st with sandboxes := aremove st.sandboxes sid } r.spaceID sid := by
    unfold DeleteSandbox
    rw [h]
    cases re <;> rfl
  have hlook : alookup (DeleteSandbox st sid se re).1.sandboxes sid = none := by
    rw [hst, sandboxes_removeSandboxFromSpace]
    exact alookup_aremove st.sandboxes sid
  refine ⟨hlook, ?_, ?_⟩
  · intro sp hsp
    rw [hst] at hsp
    exact removeSandboxFromSpace_not_mem _ _ _ _ hsp
  · rw [deleteSandbox_not_found _ _ _ _ hlook]

/-- State with one space s containing one running sandbox b, used as the
concrete input of the C8 witness. -/
def c8State : RuntimeState :=
  ⟨[("b", ⟨"c2", "http://y", true, "s"⟩)], [⟨"s", "team", "", ["b"]⟩]⟩

/-- Witness for C8 at a concrete state holding sandbox b in space s. -/
theorem c8_delete_sandbox_idempotent_witness :
    alookup c8State.sandboxes "b" = some ⟨"c2", "http://y", true, "s"⟩ ∧
    (alookup (DeleteSandbox c8State "b" none none).1.sandboxes "b" = none ∧
     (∀ sp, findSpace (DeleteSandbox c8State "b" none none).1.spaces "s" = some sp →
        "b" ∉ sp.sandboxIds) ∧
     (DeleteSandbox (DeleteSandbox c8State "b" none none).1 "b" none none).2 =
       Except.error MgrErr.sandboxNotFound) :=
  ⟨by decide,
   c8_delete_sandbox_idempotent c8State "b" ⟨"c2", "http://y", true, "s"⟩
     none none none none (by decide)⟩

/-- Registry as it stands at startup, used as the C9 input state. -/
def c9State : RuntimeState := ⟨[], initialSpaces⟩

/-- Claim C9 evaluated at the failing input: the name Invalid_Name! does
not match the required pattern, yet the create-space route answers 201
and the space is stored in the registry under that name; no 422 path
exists in the handler. -/
theorem c9_invalid_name_accepted :
    validSpaceName "Invalid_Name!" = false ∧
    (CreateSpaceHandler c9State "space-1" "Invalid_Name!" "").2 = 201 ∧
    (CreateSpaceHandler c9State "space-1" "Invalid_Name!" "").1.spaces.any
      (fun sp => decide (sp.name = "Invalid_Name!")) = true := by
  decide

/-- Claim C10: for every call to InitiateAction on an existing, running
sandbox with an action type other than shell or ipython, the call returns
an error carrying no action id, and no goroutine is spawned, so no
observation of any kind is broadcast and no request reaches the
executor; InitiateAction performs no state mutation on any path. -/
theorem c10_unsupported_action_type (st : RuntimeState) (sid t aid : String)
    (r : SandboxRec) (h1 : alookup st.sandboxes sid = some r)
    (h2 : r.isRunning = true) (h3 : t ≠ "shell") (h4 : t ≠ "ipython") :
    InitiateAction st sid t aid = (Except.error ("unsupported action type: " ++ t), []) := by
  simp [InitiateAction, h1, h2, h3, h4]

/-- State with one running sandbox b in the default space, used as the
concrete input of the C10 witness. -/
def c10State : RuntimeState :=
  ⟨[("b", ⟨"c3", "http://z", true, "default"⟩)], initialSpaces⟩

/-- Witness for C10 at a concrete state and the action type python. -/
theorem c10_unsupported_action_type_witness :
    alookup c10State.sandboxes "b" = some ⟨"c3", "http://z", true, "default"⟩ ∧
    InitiateAction c10State "b" "python" "act-9" =
      (Except.error ("unsupported action type: " ++ "python"), []) :=
  ⟨by decide,
   c10_unsupported_action_type c10State "b" "python" "act-9"
     ⟨"c3", "http://z", true, "default"⟩ (by decide) (by decide) (by decide) (by decide)⟩

end Mentis
